import Mathlib
set_option maxRecDepth 4000
/-!
Verification of the candidate-ingestion pipeline (`2-populate.py`).
The Python program is shallowly embedded: JSON values (as produced by
`json.loads`) are the inductive type `Json`; Python runtime exceptions that
the program raises or catches (`TypeError`, `ValueError`, `AttributeError`)
are the type `PyErr`, and fallible code returns `Except PyErr _`.
Python objects parsed from JSON are dictionaries with unique,
insertion-ordered keys; `Json.obj` models them as association lists and
lookup takes the first (equivalently, under uniqueness, only) binding.
-/

/-- A JSON value as produced by `json.loads`.  Numbers are modelled as
integers (the candidate records carry integer years/counters; float
literals are outside the model). -/
inductive Json where
  | null : Json
  | bool : Bool → Json
  | num : Int → Json
  | str : String → Json
  | arr : List Json → Json
  | obj : List (String × Json) → Json

/-- The Python exception kinds that `2-populate.py` raises or catches. -/
inductive PyErr where
  | typeError : PyErr
  | valueError : PyErr
  | attributeError : PyErr
deriving DecidableEq

/-- Python truthiness (`bool(x)` / `if x:`) on a JSON value: `None`, `False`,
`0`, `""`, `[]` and `\x7b\x7d` are falsy, everything else truthy. -/
def truthy : Json → Bool
  | .null => false
  | .bool b => b
  | .num n => n != 0
  | .str s => !(s == "")
  | .arr xs => !xs.isEmpty
  | .obj kvs => !kvs.isEmpty

/-- Dictionary lookup: first binding of the key (keys are unique in a
parsed Python dict). -/
def dictGet? (kvs : List (String × Json)) (k : String) : Option Json :=
  match kvs with
  | [] => none
  | (k', v) :: rest => if k' = k then some v else dictGet? rest k

/-- Python `x.get(key, default)`.  On a non-dictionary receiver (including
`None`, numbers, strings, lists) attribute access raises `AttributeError`. -/
def pyGet (j : Json) (k : String) (dflt : Json) : Except PyErr Json :=
  match j with
  | .obj kvs => .ok ((dictGet? kvs k).getD dflt)
  | _ => .error .attributeError

/-- Python iteration `for x in v`: lists yield their elements, strings yield
their one-character strings, dictionaries yield their keys; `None`, booleans
and numbers are not iterable and raise `TypeError`. -/
def pyIter : Json → Except PyErr (List Json)
  | .arr xs => .ok xs
  | .str s => .ok (s.toList.map fun c => Json.str (String.mk [c]))
  | .obj kvs => .ok (kvs.map fun p => Json.str p.1)
  | _ => .error .typeError

/-- ASCII digit test. -/
def isDig (c : Char) : Bool := 48 ≤ c.toNat && c.toNat ≤ 57

/-- Numeric value of an ASCII digit character. -/
def dVal (c : Char) : Nat := c.toNat - 48

/-- Value of a big-endian ASCII digit string. -/
def digitsVal (ds : List Char) : Nat := ds.foldl (fun a c => a * 10 + dVal c) 0

/-- Python whitespace characters stripped by `int(str)`. -/
def isPySpace (c : Char) : Bool :=
  c = ' ' || c = '\t' || c = '\n' || c = '\x0d' || c = '\x0b' || c = '\x0c'

/-- Signed decimal literal accepted by Python `int(str)` after stripping
surrounding whitespace: an optional sign followed by one or more ASCII
digits.  (Underscore digit grouping and non-ASCII digits are not modelled.) -/
def intOfChars? : List Char → Option Int
  | [] => none
  | '+' :: ds => if ds ≠ [] && ds.all isDig then some (digitsVal ds) else none
  | '-' :: ds => if ds ≠ [] && ds.all isDig then some (-(digitsVal ds : Int)) else none
  | ds => if ds.all isDig then some (digitsVal ds) else none

/-- Python `int(s)` for a string `s`: strip surrounding whitespace, then
parse an optional sign and digits; anything else raises `ValueError`. -/
def intOfString? (s : String) : Option Int :=
  intOfChars? ((s.toList.dropWhile isPySpace).reverse.dropWhile isPySpace).reverse

/-- Python `int(v)` on a JSON value: integers pass through, booleans map to
0/1, strings are parsed (`ValueError` on failure), and `None`/lists/dicts
raise `TypeError`. -/
def pyInt (j : Json) : Except PyErr Int :=
  match j with
  | .num n => .ok n
  | .bool b => .ok (if b then 1 else 0)
  | .str s =>
    match intOfString? s with
    | some n => .ok n
    | none => .error .valueError
  | _ => .error .typeError

mutual
/-- Python `repr` of a JSON value (strings quoted with `\x27`; escape
sequences inside strings are not modelled since the pipeline never inspects
these representations). -/
def pyRepr : Json → String
  | .null => "None"
  | .bool true => "True"
  | .bool false => "False"
  | .num n => toString n
  | .str s => "\x27" ++ s ++ "\x27"
  | .arr xs => "[" ++ pyReprElems xs ++ "]"
  | .obj kvs => "\x7b" ++ pyReprPairs kvs ++ "\x7d"

/-- Comma-separated `repr`s of list elements. -/
def pyReprElems : List Json → String
  | [] => ""
  | [x] => pyRepr x
  | x :: y :: xs => pyRepr x ++ ", " ++ pyReprElems (y :: xs)

/-- Comma-separated `repr`s of dictionary entries. -/
def pyReprPairs : List (String × Json) → String
  | [] => ""
  | [(k, v)] => "\x27" ++ k ++ "\x27: " ++ pyRepr v
  | (k, v) :: y :: xs => "\x27" ++ k ++ "\x27: " ++ pyRepr v ++ ", " ++ pyReprPairs (y :: xs)
end

/-- Python `str(v)` on a JSON value: strings pass through unquoted,
`None`/`True`/`False`/numbers print their names, containers print their
`repr`. -/
def pyStr (j : Json) : String :=
  match j with
  | .str s => s
  | _ => pyRepr j

/-- Leap-year rule of the proleptic Gregorian calendar used by
`datetime.date`. -/
def isLeap (y : Nat) : Bool := (y % 4 == 0 && y % 100 != 0) || y % 400 == 0

/-- Days in a month, as validated by the `datetime` constructor. -/
def daysInMonth (y m : Nat) : Nat :=
  if m = 2 then (if isLeap y then 29 else 28)
  else if m = 4 ∨ m = 6 ∨ m = 9 ∨ m = 11 then 30
  else 31

/-- The `datetime` constructor's validity check (`MINYEAR = 1`,
`MAXYEAR = 9999`; the 4-digit `%Y` parse keeps years below 10000 anyway). -/
def validYmd (y m d : Nat) : Bool :=
  1 ≤ y && y ≤ 9999 && 1 ≤ m && m ≤ 12 && 1 ≤ d && d ≤ daysInMonth y m

/-- Split a leading run of ASCII digits from a character list. -/
def takeDigs : List Char → List Char × List Char
  | [] => ([], [])
  | c :: cs =>
    if isDig c then
      let p := takeDigs cs
      (c :: p.1, p.2)
    else ([], c :: cs)

/-- `strptime(s, "%Y-%m-%d")` on the character list of `s`: `%Y` matches
exactly four digits, `%m` and `%d` match one or two digits (with the regex
backtracking collapsing to a maximal-run check since a digit can never match
the following literal), the whole string must be consumed, and the
resulting triple must satisfy the `datetime` constructor's bounds. -/
def parseYmdChars : List Char → Option (Nat × Nat × Nat)
  | a :: b :: c :: d :: e :: rest =>
    if isDig a && isDig b && isDig c && isDig d && e = '-' then
      let pm := takeDigs rest
      match pm.2 with
      | '-' :: rest2 =>
        if 1 ≤ pm.1.length && pm.1.length ≤ 2 then
          let pd := takeDigs rest2
          if pd.2.isEmpty && 1 ≤ pd.1.length && pd.1.length ≤ 2 then
            let y := digitsVal [a, b, c, d]
            let m := digitsVal pm.1
            let dd := digitsVal pd.1
            if validYmd y m dd then some (y, m, dd) else none
          else none
        else none
      | _ => none
    else none
  | _ => none

/-- `datetime.strptime(s, "%Y-%m-%d")` reduced to its date triple. -/
def strptimeYmd (s : String) : Option (Nat × Nat × Nat) :=
  parseYmdChars s.toList

/-- The ASCII digit character for `n < 10`. -/
def dChar (n : Nat) : Char := Char.ofNat (48 + n)

/-- Two-digit zero-padded decimal (for `%m` and `%d`). -/
def pad2 (n : Nat) : List Char := [dChar (n / 10), dChar (n % 10)]

/-- Four-digit zero-padded decimal (for `%Y`; years reaching `strftime`
here always have four digits, and for the sub-1000 corner — reachable only
through a leading-zero input year — the model fixes the zero-padded reading
of `%Y`, which is platform-dependent in CPython). -/
def pad4 (n : Nat) : List Char :=
  [dChar (n / 1000), dChar (n / 100 % 10), dChar (n / 10 % 10), dChar (n % 10)]

/-- `strftime("%Y-%m-%d")` of a date triple. -/
def strftimeYmd (y m d : Nat) : String :=
  String.mk (pad4 y ++ '-' :: pad2 m ++ '-' :: pad2 d)

/-- `datetime.strptime(v, "%Y-%m-%d")` on an arbitrary value: a string is
parsed (`ValueError` on failure), a non-string raises `TypeError`. -/
def strptimeE (j : Json) : Except PyErr (Nat × Nat × Nat) :=
  match j with
  | .str s =>
    match strptimeYmd s with
    | some t => .ok t
    | none => .error .valueError
  | _ => .error .typeError

/-- `parse_date` from `2-populate.py`: falsy input returns `None`;
otherwise `strptime` then `strftime`, with `ValueError` and `TypeError`
caught and collapsed to `None` (any other exception would propagate). -/
def parse_date (j : Json) : Except PyErr (Option String) :=
  if truthy j then
    match strptimeE j with
    | .ok (y, m, d) => .ok (some (strftimeYmd y m d))
    | .error .valueError => .ok none
    | .error .typeError => .ok none
    | .error e => .error e
  else
    .ok none

/-- An optional canonical date as stored in the output record: `None`
becomes JSON `null`, a date string is stored as text. -/
def optToJson : Option String → Json
  | none => Json.null
  | some s => Json.str s

/-- The `int(... ) or None` idiom on the education year fields: a converted
value of `0` collapses to `None`, any other integer is kept. -/
def intOrNone (v : Json) : Except PyErr Json :=
  match pyInt v with
  | .ok n => .ok (if n = 0 then Json.null else Json.num n)
  | .error e => .error e

/-- The education-entry body of `process_candidate` (executed only for
entries that pass `isinstance(edu, dict)`). -/
def processEdu (edu : Json) : Except PyErr Json := do
  let dg ← pyGet edu "degree" (.str "")
  let syRaw ← pyGet edu "university_start_year" (.num 0)
  let sy ← intOrNone syRaw
  let eyRaw ← pyGet edu "university_end_year" (.num 0)
  let ey ← intOrNone eyRaw
  let ea ← pyGet edu "education_area" (.str "")
  let sn ← pyGet edu "school_name" (.str "")
  return Json.obj [("degree", dg), ("university_start_year", sy),
    ("university_end_year", ey), ("education_area", ea), ("school_name", sn)]

/-- The education loop: entries that are not dictionaries are skipped by the
`isinstance` guard; an exception inside the body aborts the whole loop. -/
def processEducation : List Json → Except PyErr (List Json)
  | [] => .ok []
  | e :: rest =>
    match e with
    | .obj kvs => do
      let pe ← processEdu (.obj kvs)
      let prest ← processEducation (rest)
      return pe :: prest
    | _ => processEducation rest

/-- The experience-entry body of `process_candidate`; there is no
`isinstance` guard, so `.get` on a non-dictionary entry raises. -/
def processExp (exp : Json) : Except PyErr Json := do
  let t ← pyGet exp "title" (.str "")
  let em ← pyGet exp "employer" (.str "")
  let de ← pyGet exp "description" (.str "")
  let ic ← pyGet exp "is_current" (.bool false)
  let sdRaw ← pyGet exp "start_date" Json.null
  let sd ← parse_date sdRaw
  let ldRaw ← pyGet exp "left_date" Json.null
  let ld ← parse_date ldRaw
  let dy ← pyGet exp "duration_years" (.str "")
  return Json.obj [("title", t), ("employer", em), ("description", de),
    ("is_current", .bool (truthy ic)), ("start_date", optToJson sd),
    ("left_date", optToJson ld), ("duration_years", .str (pyStr dy))]

/-- The experiences loop (no dictionary guard). -/
def processExperiences : List Json → Except PyErr (List Json)
  | [] => .ok []
  | e :: rest => do
    let pe ← processExp e
    let prest ← processExperiences rest
    return pe :: prest

/-- The location-entry body of `process_candidate` (no dictionary guard). -/
def processLoc (loc : Json) : Except PyErr Json := do
  let co ← pyGet loc "country" (.str "")
  let st ← pyGet loc "state" (.str "")
  let ci ← pyGet loc "city" (.str "")
  return Json.obj [("country", co), ("state", st), ("city", ci)]

/-- The locations loop (no dictionary guard). -/
def processLocations : List Json → Except PyErr (List Json)
  | [] => .ok []
  | e :: rest => do
    let pe ← processLoc e
    let prest ← processLocations rest
    return pe :: prest

/-- The `candidate_activity` block: the counters are stringified with
`str(...)` and `last_login` goes through `parse_date`. -/
def processActivity (ca : Json) : Except PyErr Json := do
  let aad ← pyGet ca "account_age_days" (.str "")
  let col ← pyGet ca "count_of_logins" (.str "")
  let llRaw ← pyGet ca "last_login" Json.null
  let ll ← parse_date llRaw
  return Json.obj [("account_age_days", .str (pyStr aad)),
    ("count_of_logins", .str (pyStr col)), ("last_login", optToJson ll)]

/-- `process_candidate` from `2-populate.py`, in the source's evaluation
order: the education, experiences, locations and activity blocks run first,
then the result dictionary's top-level `get` calls; the enclosing
`try/except` prints and re-raises, so any exception propagates unchanged. -/
def process_candidate (cd : Json) : Except PyErr Json := do
  let eduField ← pyGet cd "education" (.arr [])
  let eduItems ← pyIter eduField
  let edus ← processEducation eduItems
  let expField ← pyGet cd "experiences" (.arr [])
  let expItems ← pyIter expField
  let exps ← processExperiences expItems
  let locField ← pyGet cd "locations" (.arr [])
  let locItems ← pyIter locField
  let locs ← processLocations locItems
  let caField ← pyGet cd "candidate_activity" (.obj [])
  let act ← processActivity caField
  let nm ← pyGet cd "name" (.str "")
  let cv ← pyGet cd "candidate_values" (.str "")
  let cs ← pyGet cd "candidate_strengths" (.str "")
  let jse ← pyGet cd "jobSearchenvironment" (.arr [])
  let sk ← pyGet cd "skills" (.arr [])
  let wtr ← pyGet cd "willing_to_relocate" (.bool false)
  let mpl ← pyGet cd "mentra_profile_link" (.str "")
  return Json.obj [("name", nm), ("candidate_values", cv),
    ("candidate_strengths", cs), ("jobSearchenvironment", jse),
    ("skills", sk), ("education", .arr edus), ("experiences", .arr exps),
    ("locations", .arr locs), ("willing_to_relocate", .bool (truthy wtr)),
    ("mentra_profile_link", mpl), ("candidate_activity", act)]

/-- The fully defaulted output record: `process_candidate` applied to an
empty dictionary. -/
def defaultOut : Json :=
  Json.obj [("name", .str ""), ("candidate_values", .str ""),
    ("candidate_strengths", .str ""), ("jobSearchenvironment", .arr []),
    ("skills", .arr []), ("education", .arr []), ("experiences", .arr []),
    ("locations", .arr []), ("willing_to_relocate", .bool false),
    ("mentra_profile_link", .str ""),
    ("candidate_activity", Json.obj [("account_age_days", .str ""),
      ("count_of_logins", .str ""), ("last_login", Json.null)])]

/-- The content preview logged on a parse failure: `line[:200]`. -/
def preview (line : String) : String := line.take 200

/-- Python `line.strip()`: drop leading and trailing whitespace. -/
def pyStrip (s : String) : String :=
  String.mk (((s.toList.dropWhile isPySpace).reverse.dropWhile isPySpace).reverse)

/-- The line loop of `read_json_file`, starting from line number `n`
(`enumerate(file, 1)` starts at 1).  The JSON parser itself
(`json.loads`, standard-library code) is a parameter `loads`; each line is
stripped before parsing, and a parse failure logs the line number plus a
content preview of the unstripped line and then re-raises, aborting the
whole read.  The error value carries exactly what is logged. -/
def readLines (loads : String → Option Json) :
    Nat → List String → Except (Nat × String) (List Json)
  | _, [] => .ok []
  | n, l :: rest =>
    match loads (pyStrip l) with
    | some j =>
      match readLines loads (n + 1) rest with
      | .ok js => .ok (j :: js)
      | .error e => .error e
    | none => .error (n, preview l)

/-- `read_json_file` from `2-populate.py`, over the file's lines. -/
def read_json_file (loads : String → Option Json) (lines : List String) :
    Except (Nat × String) (List Json) :=
  readLines loads 1 lines

/-- A stand-in for `json.loads` used to exercise `read_json_file` at
concrete inputs: accepts only the two literals the examples need. -/
def demoLoads : String → Option Json := fun s =>
  if s = "\x7b\x7d" then some (Json.obj [])
  else if s = "null" then some Json.null
  else none

/-- Outcome of the insertion loop at the bottom of `2-populate.py`:
how many store insert calls were made, which processed records were
inserted, which were logged as failed inserts, and whether the loop was
abandoned early by a `process_candidate` exception (caught by the outer
`try/except` after the loop). -/
structure LoadOutcome where
  calls : Nat
  inserted : List Json
  failed : List Json
  abortedEarly : Bool

/-- The insertion loop of `2-populate.py`: each candidate is processed and
then submitted in a single `data.insert` call — there is no batch buffer
and no retry.  `ins k` is the store's response to the `k`-th insert call
of the run.  An insert exception is caught, logged and the loop continues;
a `process_candidate` exception escapes to the outer handler, abandoning
the remaining candidates. -/
def insert_loop (ins : Nat → Except PyErr String) :
    Nat → List Json → LoadOutcome
  | _, [] => ⟨0, [], [], false⟩
  | k, cd :: rest =>
    match process_candidate cd with
    | .error _ => ⟨0, [], [], true⟩
    | .ok p =>
      match ins k with
      | .ok _ =>
        let r := insert_loop ins (k + 1) rest
        ⟨r.calls + 1, p :: r.inserted, r.failed, r.abortedEarly⟩
      | .error _ =>
        let r := insert_loop ins (k + 1) rest
        ⟨r.calls + 1, r.inserted, p :: r.failed, r.abortedEarly⟩

/-- A store whose first insert call fails transiently and which would
succeed on every later call. -/
def failFirst : Nat → Except PyErr String := fun k =>
  if k = 0 then .error .valueError else .ok "uuid"

/-- A store that accepts every insert call. -/
def alwaysOk : Nat → Except PyErr String := fun _ => .ok "uuid"

/-- Truth of `(process_candidate cd).isOk` without needing decidable
equality on `Json`. -/
def isOkB : Except PyErr Json → Bool
  | .ok _ => true
  | .error _ => false

/-- A year field as produced by the `int(...) or None` idiom: `null` or a
non-zero integer. -/
def YearVal (v : Json) : Prop := v = Json.null ∨ ∃ n : Int, n ≠ 0 ∧ v = Json.num n

/-- A date field as produced by `parse_date`: `null` or the canonical
rendering of a valid date. -/
def DateVal (v : Json) : Prop :=
  v = Json.null ∨ ∃ y m d, validYmd y m d = true ∧ v = Json.str (strftimeYmd y m d)

/-- Shape of a normalized education entry. -/
def EduNormal (e : Json) : Prop :=
  ∃ dg sy ey ea sn, YearVal sy ∧ YearVal ey ∧
    e = Json.obj [("degree", dg), ("university_start_year", sy),
      ("university_end_year", ey), ("education_area", ea), ("school_name", sn)]

/-- Shape of a normalized experience entry. -/
def ExpNormal (e : Json) : Prop :=
  ∃ t em de b sd ld s, DateVal sd ∧ DateVal ld ∧
    e = Json.obj [("title", t), ("employer", em), ("description", de),
      ("is_current", .bool b), ("start_date", sd), ("left_date", ld),
      ("duration_years", .str s)]

/-- Shape of a normalized location entry. -/
def LocNormal (e : Json) : Prop :=
  ∃ co st ci, e = Json.obj [("country", co), ("state", st), ("city", ci)]

/-- Shape of a normalized activity record. -/
def ActNormal (a : Json) : Prop :=
  ∃ s1 s2 ll, DateVal ll ∧
    a = Json.obj [("account_age_days", .str s1), ("count_of_logins", .str s2),
      ("last_login", ll)]

/-- Shape of a normalized candidate record. -/
def RecNormal (out : Json) : Prop :=
  ∃ nm cv cs jse sk edus exps locs b mpl act,
    (∀ e ∈ edus, EduNormal e) ∧ (∀ e ∈ exps, ExpNormal e) ∧
    (∀ e ∈ locs, LocNormal e) ∧ ActNormal act ∧
    out = Json.obj [("name", nm), ("candidate_values", cv),
      ("candidate_strengths", cs), ("jobSearchenvironment", jse),
      ("skills", sk), ("education", .arr edus), ("experiences", .arr exps),
      ("locations", .arr locs), ("willing_to_relocate", .bool b),
      ("mentra_profile_link", mpl), ("candidate_activity", act)]

/-- Whether an education entry carries no Absent (null) year field. -/
def eduYearsPresent : Json → Bool
  | .obj kvs =>
    (match dictGet? kvs "university_start_year" with
     | some Json.null => false
     | _ => true) &&
    (match dictGet? kvs "university_end_year" with
     | some Json.null => false
     | _ => true)
  | _ => true

/-- Whether no education entry of a record carries an Absent (null) year. -/
def noNullEduYears : Json → Bool
  | .obj kvs =>
    (match dictGet? kvs "education" with
     | some (.arr es) => es.all eduYearsPresent
     | _ => true)
  | _ => true

/-- Reading a stored optional date back out of its JSON form. -/
def dateBack : Json → Option String
  | .str s => some s
  | _ => none

/-- The normalized output of a record whose single education entry has no
year data: both year fields come out Absent (null). -/
def nullYearOut : Json :=
  Json.obj [("name", .str ""), ("candidate_values", .str ""),
    ("candidate_strengths", .str ""), ("jobSearchenvironment", .arr []),
    ("skills", .arr []),
    ("education", .arr [Json.obj [("degree", .str ""),
      ("university_start_year", Json.null), ("university_end_year", Json.null),
      ("education_area", .str ""), ("school_name", .str "")]]),
    ("experiences", .arr []), ("locations", .arr []),
    ("willing_to_relocate", .bool false), ("mentra_profile_link", .str ""),
    ("candidate_activity", Json.obj [("account_age_days", .str ""),
      ("count_of_logins", .str ""), ("last_login", Json.null)])]

theorem dChar_isDig {k : Nat} (h : k ≤ 9) : isDig (dChar k) = true := by
  interval_cases k <;> decide

theorem dVal_dChar {k : Nat} (h : k ≤ 9) : dVal (dChar k) = k := by
  interval_cases k <;> decide

theorem daysInMonth_le (y m : Nat) : daysInMonth y m ≤ 31 := by
  unfold daysInMonth
  split_ifs <;> omega

theorem takeDigs_cons_dig {c : Char} (cs : List Char) (h : isDig c = true) :
    takeDigs (c :: cs) = ((c :: (takeDigs cs).1), (takeDigs cs).2) := by
  simp [takeDigs, h]

theorem takeDigs_cons_nondig {c : Char} (cs : List Char) (h : isDig c = false) :
    takeDigs (c :: cs) = ([], c :: cs) := by
  simp [takeDigs, h]

theorem digitsVal_pad2 {m : Nat} (h : m ≤ 99) : digitsVal (pad2 m) = m := by
  have h1 : dVal (dChar (m / 10)) = m / 10 := dVal_dChar (by omega)
  have h2 : dVal (dChar (m % 10)) = m % 10 := dVal_dChar (by omega)
  simp [digitsVal, pad2, List.foldl, h1, h2]
  omega

theorem digitsVal_pad4 {y : Nat} (h : y ≤ 9999) : digitsVal (pad4 y) = y := by
  have h1 : dVal (dChar (y / 1000)) = y / 1000 := dVal_dChar (by omega)
  have h2 : dVal (dChar (y / 100 % 10)) = y / 100 % 10 := dVal_dChar (by omega)
  have h3 : dVal (dChar (y / 10 % 10)) = y / 10 % 10 := dVal_dChar (by omega)
  have h4 : dVal (dChar (y % 10)) = y % 10 := dVal_dChar (by omega)
  simp [digitsVal, pad4, List.foldl, h1, h2, h3, h4]
  omega

theorem validYmd_bounds {y m d : Nat} (h : validYmd y m d = true) :
    1 ≤ y ∧ y ≤ 9999 ∧ 1 ≤ m ∧ m ≤ 12 ∧ 1 ≤ d ∧ d ≤ 31 := by
  have hdm := daysInMonth_le y m
  simp only [validYmd, Bool.and_eq_true, decide_eq_true_eq] at h
  omega

/-- `strftime` output of a valid date always parses back to the same
triple: the round trip underlying both "no validity window" and the
idempotence analysis. -/
theorem strptime_strftime {y m d : Nat} (hv : validYmd y m d = true) :
    strptimeYmd (strftimeYmd y m d) = some (y, m, d) := by
  obtain ⟨hy1, hy2, hm1, hm2, hd1, hd2⟩ := validYmd_bounds hv
  have e1 : isDig (dChar (y / 1000)) = true := dChar_isDig (by omega)
  have e2 : isDig (dChar (y / 100 % 10)) = true := dChar_isDig (by omega)
  have e3 : isDig (dChar (y / 10 % 10)) = true := dChar_isDig (by omega)
  have e4 : isDig (dChar (y % 10)) = true := dChar_isDig (by omega)
  have e5 : isDig (dChar (m / 10)) = true := dChar_isDig (by omega)
  have e6 : isDig (dChar (m % 10)) = true := dChar_isDig (by omega)
  have e7 : isDig (dChar (d / 10)) = true := dChar_isDig (by omega)
  have e8 : isDig (dChar (d % 10)) = true := dChar_isDig (by omega)
  have edash : isDig '-' = false := by decide
  have hp4 : digitsVal (pad4 y) = y := digitsVal_pad4 (by omega)
  have hpm : digitsVal (pad2 m) = m := digitsVal_pad2 (by omega)
  have hpd : digitsVal (pad2 d) = d := digitsVal_pad2 (by omega)
  have hp4e : digitsVal [dChar (y / 1000), dChar (y / 100 % 10),
      dChar (y / 10 % 10), dChar (y % 10)] = y := by
    simpa [pad4] using hp4
  have hpme : digitsVal [dChar (m / 10), dChar (m % 10)] = m := by
    simpa [pad2] using hpm
  have hpde : digitsVal [dChar (d / 10), dChar (d % 10)] = d := by
    simpa [pad2] using hpd
  have t1 : takeDigs [dChar (m / 10), dChar (m % 10), '-', dChar (d / 10), dChar (d % 10)]
      = ([dChar (m / 10), dChar (m % 10)], ['-', dChar (d / 10), dChar (d % 10)]) := by
    rw [takeDigs_cons_dig _ e5, takeDigs_cons_dig _ e6, takeDigs_cons_nondig _ edash]
  have t2 : takeDigs [dChar (d / 10), dChar (d % 10)]
      = ([dChar (d / 10), dChar (d % 10)], []) := by
    rw [takeDigs_cons_dig _ e7, takeDigs_cons_dig _ e8]
    simp [takeDigs]
  show parseYmdChars (String.mk (pad4 y ++ '-' :: pad2 m ++ '-' :: pad2 d)).toList
      = some (y, m, d)
  show parseYmdChars (pad4 y ++ '-' :: pad2 m ++ '-' :: pad2 d) = some (y, m, d)
  simp only [pad4, pad2, List.cons_append, List.nil_append]
  simp only [parseYmdChars]
  simp [e1, e2, e3, e4, t1, t2, hp4e, hpme, hpde, hv]

theorem parseYmdChars_valid {l : List Char} {y m d : Nat}
    (h : parseYmdChars l = some (y, m, d)) : validYmd y m d = true := by
  unfold parseYmdChars at h
  split at h
  · split at h
    · dsimp only [] at h
      split at h
      · split at h
        · split at h
          · split at h
            · simp only [Option.some.injEq, Prod.mk.injEq] at h
              obtain ⟨h1, h2, h3⟩ := h
              subst h1; subst h2; subst h3
              assumption
            · exact absurd h (by simp)
          · exact absurd h (by simp)
        · exact absurd h (by simp)
      · exact absurd h (by simp)
    · exact absurd h (by simp)
  · exact absurd h (by simp)

theorem strptimeYmd_valid {s : String} {y m d : Nat}
    (h : strptimeYmd s = some (y, m, d)) : validYmd y m d = true :=
  parseYmdChars_valid h

theorem strptimeE_ok_valid {j : Json} {y m d : Nat}
    (h : strptimeE j = .ok (y, m, d)) : validYmd y m d = true := by
  unfold strptimeE at h
  split at h
  · split at h
    · simp only [Except.ok.injEq] at h
      subst h
      exact strptimeYmd_valid (by assumption)
    · exact absurd h (by simp)
  · exact absurd h (by simp)

theorem strptimeE_error_kind {j : Json} {e : PyErr}
    (h : strptimeE j = .error e) : e = .valueError ∨ e = .typeError := by
  unfold strptimeE at h
  split at h
  · split at h
    · exact absurd h (by simp)
    · simp only [Except.error.injEq] at h
      exact Or.inl h.symm
  · simp only [Except.error.injEq] at h
    exact Or.inr h.symm

/-- `parse_date` never propagates an exception, and every successful value
is the canonical `strftime` rendering of a valid date triple. -/
theorem parse_date_shape (j : Json) :
    parse_date j = .ok none ∨
    ∃ y m d, validYmd y m d = true ∧
      parse_date j = .ok (some (strftimeYmd y m d)) := by
  unfold parse_date
  by_cases ht : truthy j = true
  · simp only [ht, if_true]
    cases hs : strptimeE j with
    | ok t =>
      obtain ⟨y, m, d⟩ := t
      exact Or.inr ⟨y, m, d, strptimeE_ok_valid hs, rfl⟩
    | error e =>
      rcases strptimeE_error_kind hs with he | he <;> subst he <;> simp
  · simp [ht]

theorem strftimeYmd_ne_empty (y m d : Nat) : strftimeYmd y m d ≠ "" := by
  intro h
  have hdata := congrArg String.data h
  simp [strftimeYmd, pad4] at hdata

/-- C1: the date normalizer is total — for every input value (empty,
garbage, 2-digit-year, year-only, year-month-only, future-dated strings,
or non-strings), `parse_date` returns (never raises to its caller) either
the canonical rendering of a valid date or `None`. -/
theorem c1_parse_date_total (j : Json) :
    parse_date j = .ok none ∨
    ∃ y m d, validYmd y m d = true ∧
      parse_date j = .ok (some (strftimeYmd y m d)) :=
  parse_date_shape j

/-- C3 counterexample: on `"99-01-01"` the code returns `None`: the
two-digit year is not expanded with a `"20"` prefix, and no
`1999-01-01T00:00:00+00:00` timestamp is produced. -/
theorem c3_counterexample :
    parse_date (Json.str "99-01-01") = .ok none ∧
    parse_date (Json.str "99-01-01") ≠ .ok (some "1999-01-01T00:00:00+00:00") := by
  refine ⟨rfl, fun h => ?_⟩
  rw [show parse_date (Json.str "99-01-01") = .ok none from rfl] at h
  exact absurd h (by simp)

/-- C3 amended: `parse_date` performs no two-digit-year expansion — `%Y`
requires exactly four digits, so a two-digit leading year fails the parse
and degrades to Absent — and a successful parse is echoed back as a plain
zero-padded `YYYY-MM-DD` date with no time-of-day or UTC offset. -/
theorem c3_no_two_digit_expansion :
    parse_date (Json.str "99-01-01") = .ok none ∧
    parse_date (Json.str "2020-5-7") = .ok (some "2020-05-07") :=
  ⟨rfl, rfl⟩

/-- C4 counterexample: `parse_date` accepts `"1850-01-01"` and returns it
unchanged instead of rejecting years below the spec's 1900 floor. -/
theorem c4_counterexample :
    parse_date (Json.str "1850-01-01") = .ok (some "1850-01-01") ∧
    parse_date (Json.str "1850-01-01") ≠ .ok none := by
  refine ⟨rfl, fun h => ?_⟩
  rw [show parse_date (Json.str "1850-01-01") = .ok (some "1850-01-01") from rfl] at h
  exact absurd h (by simp)

/-- C4 amended: `parse_date` takes no reference year and enforces no
validity window at all — every calendar-valid date string is accepted and
echoed back zero-padded, whatever its year. -/
theorem c4_no_validity_window (y m d : Nat) (hv : validYmd y m d = true) :
    parse_date (Json.str (strftimeYmd y m d)) = .ok (some (strftimeYmd y m d)) := by
  have ht : truthy (Json.str (strftimeYmd y m d)) = true := by
    simp [truthy, strftimeYmd_ne_empty]
  unfold parse_date
  rw [ht]
  simp only [if_true]
  unfold strptimeE
  dsimp only []
  rw [strptime_strftime hv]

/-- Witness for the amended C4, at the claim's own below-the-floor input
`1850-01-01`. -/
theorem c4_no_validity_window_witness :
    validYmd 1850 1 1 = true ∧
    parse_date (Json.str (strftimeYmd 1850 1 1)) = .ok (some (strftimeYmd 1850 1 1)) :=
  ⟨by decide, c4_no_validity_window 1850 1 1 (by decide)⟩

/-- C2 counterexample: a raw record that maps the sequence field
`jobSearchenvironment` explicitly to `null` is normalized to a record
whose `jobSearchenvironment` is still `null` (the `.get` default applies
only to missing keys), and an explicit `null` for `candidate_activity`
even aborts the record with `AttributeError`. -/
theorem c2_counterexample :
    process_candidate (Json.obj [("jobSearchenvironment", Json.null)]) =
      .ok (Json.obj [("name", .str ""), ("candidate_values", .str ""),
        ("candidate_strengths", .str ""), ("jobSearchenvironment", Json.null),
        ("skills", .arr []), ("education", .arr []), ("experiences", .arr []),
        ("locations", .arr []), ("willing_to_relocate", .bool false),
        ("mentra_profile_link", .str ""),
        ("candidate_activity", Json.obj [("account_age_days", .str ""),
          ("count_of_logins", .str ""), ("last_login", Json.null)])]) ∧
    process_candidate (Json.obj [("candidate_activity", Json.null)]) =
      .error .attributeError :=
  ⟨rfl, rfl⟩

/-- C2 amended: the defaults guard only against missing keys.  A record
with no sequence/activity keys normalizes with empty sequences and a
zero-valued activity record; but an explicit `null` passes through
unchanged for `jobSearchenvironment`/`skills`, and is fatal to the record
for `education`/`experiences`/`locations` (`TypeError` on iteration) and
for `candidate_activity` (`AttributeError` on `.get`). -/
theorem c2_defaults_only_for_missing :
    process_candidate (Json.obj []) = .ok defaultOut ∧
    process_candidate (Json.obj [("skills", Json.null)]) =
      .ok (Json.obj [("name", .str ""), ("candidate_values", .str ""),
        ("candidate_strengths", .str ""), ("jobSearchenvironment", .arr []),
        ("skills", Json.null), ("education", .arr []), ("experiences", .arr []),
        ("locations", .arr []), ("willing_to_relocate", .bool false),
        ("mentra_profile_link", .str ""),
        ("candidate_activity", Json.obj [("account_age_days", .str ""),
          ("count_of_logins", .str ""), ("last_login", Json.null)])]) ∧
    process_candidate (Json.obj [("education", Json.null)]) = .error .typeError ∧
    process_candidate (Json.obj [("experiences", Json.null)]) = .error .typeError ∧
    process_candidate (Json.obj [("locations", Json.null)]) = .error .typeError ∧
    process_candidate (Json.obj [("candidate_activity", Json.null)]) =
      .error .attributeError :=
  ⟨rfl, rfl, rfl, rfl, rfl, rfl⟩

/-- C5 counterexample: an education entry whose `university_start_year` is
a non-integer-convertible string makes `int(...)` raise `ValueError`,
which `process_candidate` re-raises — fatal to the whole record, contrary
to the claim's "collapses to Absent, never fatal". -/
theorem c5_counterexample :
    process_candidate (Json.obj [("education",
      Json.arr [Json.obj [("university_start_year", Json.str "abc")]])]) =
      .error .valueError :=
  rfl

/-- C5 amended: a year value of `0` does collapse to Absent (`null`) and a
non-zero integer is stored as-is, but an unparsable string raises
`ValueError` and an explicit `null` year raises `TypeError`, both fatal to
the record. -/
theorem c5_zero_absent_unparsable_fatal :
    process_candidate (Json.obj [("education",
      Json.arr [Json.obj [("degree", Json.str "BS"),
        ("university_start_year", Json.num 0),
        ("university_end_year", Json.num 2020)]])]) =
      .ok (Json.obj [("name", .str ""), ("candidate_values", .str ""),
        ("candidate_strengths", .str ""), ("jobSearchenvironment", .arr []),
        ("skills", .arr []),
        ("education", .arr [Json.obj [("degree", .str "BS"),
          ("university_start_year", Json.null),
          ("university_end_year", Json.num 2020),
          ("education_area", .str ""), ("school_name", .str "")]]),
        ("experiences", .arr []), ("locations", .arr []),
        ("willing_to_relocate", .bool false), ("mentra_profile_link", .str ""),
        ("candidate_activity", Json.obj [("account_age_days", .str ""),
          ("count_of_logins", .str ""), ("last_login", Json.null)])]) ∧
    process_candidate (Json.obj [("education",
      Json.arr [Json.obj [("university_start_year", Json.str "n/a")]])]) =
      .error .valueError ∧
    process_candidate (Json.obj [("education",
      Json.arr [Json.obj [("university_start_year", Json.null)]])]) =
      .error .typeError :=
  ⟨rfl, rfl, rfl⟩

/-- C6 counterexample: a non-mapping entry in `experiences` is not
skipped — `.get` on it raises `AttributeError` and the whole record is
aborted. -/
theorem c6_counterexample :
    process_candidate (Json.obj [("experiences", Json.arr [Json.num 5])]) =
      .error .attributeError :=
  rfl

/-- C6 amended: only `education` entries are guarded by `isinstance`: a
non-mapping education entry is silently dropped and its valid sibling is
kept, while a non-mapping entry in `experiences` or `locations` raises
`AttributeError`, aborting the whole record. -/
theorem c6_only_education_guarded :
    process_candidate (Json.obj [("education", Json.arr [Json.num 7,
      Json.obj [("degree", Json.str "BS"),
        ("university_start_year", Json.num 1999),
        ("university_end_year", Json.num 2003)]])]) =
      .ok (Json.obj [("name", .str ""), ("candidate_values", .str ""),
        ("candidate_strengths", .str ""), ("jobSearchenvironment", .arr []),
        ("skills", .arr []),
        ("education", .arr [Json.obj [("degree", .str "BS"),
          ("university_start_year", Json.num 1999),
          ("university_end_year", Json.num 2003),
          ("education_area", .str ""), ("school_name", .str "")]]),
        ("experiences", .arr []), ("locations", .arr []),
        ("willing_to_relocate", .bool false), ("mentra_profile_link", .str ""),
        ("candidate_activity", Json.obj [("account_age_days", .str ""),
          ("count_of_logins", .str ""), ("last_login", Json.null)])]) ∧
    process_candidate (Json.obj [("experiences", Json.arr [Json.str "x"])]) =
      .error .attributeError ∧
    process_candidate (Json.obj [("locations", Json.arr [Json.bool true])]) =
      .error .attributeError :=
  ⟨rfl, rfl, rfl⟩

/-- C10: when `candidate_activity` is present and a counter sub-field is
explicitly `null`, `str(None)` stores the literal text `"None"`, whereas a
missing sub-field gets the empty-string default. -/
theorem c10_activity_null_stringified :
    process_candidate (Json.obj [("candidate_activity",
      Json.obj [("account_age_days", Json.null), ("count_of_logins", Json.num 7)])]) =
      .ok (Json.obj [("name", .str ""), ("candidate_values", .str ""),
        ("candidate_strengths", .str ""), ("jobSearchenvironment", .arr []),
        ("skills", .arr []), ("education", .arr []), ("experiences", .arr []),
        ("locations", .arr []), ("willing_to_relocate", .bool false),
        ("mentra_profile_link", .str ""),
        ("candidate_activity", Json.obj [("account_age_days", .str "None"),
          ("count_of_logins", .str "7"), ("last_login", Json.null)])]) ∧
    process_candidate (Json.obj [("candidate_activity",
      Json.obj [("count_of_logins", Json.null)])]) =
      .ok (Json.obj [("name", .str ""), ("candidate_values", .str ""),
        ("candidate_strengths", .str ""), ("jobSearchenvironment", .arr []),
        ("skills", .arr []), ("education", .arr []), ("experiences", .arr []),
        ("locations", .arr []), ("willing_to_relocate", .bool false),
        ("mentra_profile_link", .str ""),
        ("candidate_activity", Json.obj [("account_age_days", .str ""),
          ("count_of_logins", .str "None"), ("last_login", Json.null)])]) :=
  ⟨rfl, rfl⟩

/-- C8 counterexample: a malformed second line aborts the whole read — no
record is returned, only the logged line number and content preview — so
there is no lenient mode in which the run continues past it. -/
theorem c8_counterexample :
    read_json_file demoLoads ["\x7b\x7d", "garbage", "null"] =
      .error (2, "garbage") :=
  rfl

theorem readLines_abort {loads : String → Option Json} {bad : String}
    {rest : List String} (hbad : loads (pyStrip bad) = none) :
    ∀ (pre : List String) (n : Nat),
      (∀ l ∈ pre, (loads (pyStrip l)).isSome = true) →
      readLines loads n (pre ++ bad :: rest) =
        .error (n + pre.length, preview bad) := by
  intro pre
  induction pre with
  | nil =>
    intro n _
    simp [readLines, hbad]
  | cons l pre ih =>
    intro n hpre
    have hl : (loads (pyStrip l)).isSome = true := hpre l (by simp)
    obtain ⟨j, hj⟩ := Option.isSome_iff_exists.mp hl
    have hrest : ∀ x ∈ pre, (loads (pyStrip x)).isSome = true :=
      fun x hx => hpre x (by simp [hx])
    simp only [List.cons_append, readLines, hj, List.append_eq]
    rw [ih (n + 1) hrest]
    have harith : n + 1 + pre.length = n + (l :: pre).length := by
      simp [List.length_cons]
      omega
    rw [harith]

/-- C8 amended: `read_json_file` is strict-only: the first line whose
parse fails is logged with its line number and a 200-character content
preview, and the exception is re-raised, aborting the whole read — there
is no configurable lenient/skip mode. -/
theorem c8_always_strict (loads : String → Option Json)
    (pre : List String) (bad : String) (rest : List String)
    (hpre : ∀ l ∈ pre, (loads (pyStrip l)).isSome = true)
    (hbad : loads (pyStrip bad) = none) :
    read_json_file loads (pre ++ bad :: rest) =
      .error (pre.length + 1, preview bad) := by
  unfold read_json_file
  rw [readLines_abort hbad pre 1 hpre]
  rw [Nat.add_comm]

/-- Witness for the amended C8: one good line, then a malformed one. -/
theorem c8_always_strict_witness :
    read_json_file demoLoads (["\x7b\x7d"] ++ "garbage" :: ["null"]) =
      .error ((["\x7b\x7d"] : List String).length + 1, preview "garbage") :=
  c8_always_strict demoLoads ["\x7b\x7d"] "garbage" ["null"]
    (by decide) (by rfl)

/-- C9 counterexample: with a store whose first insert call fails
transiently (it would succeed from the second call on), the single record
is reported failed after exactly one call — no retry up to 3 attempts —
and two records cost two separate store calls, not one buffered flush. -/
theorem c9_counterexample :
    insert_loop failFirst 0 [Json.obj []] = ⟨1, [], [defaultOut], false⟩ ∧
    (insert_loop alwaysOk 0 [Json.obj [], Json.obj []]).calls = 2 :=
  ⟨rfl, rfl⟩

/-- C9 amended: the loader has no batch buffer and no retry: every record
that normalizes successfully costs exactly one insert call (N records → N
calls), an insert failure sends the record to the failed list while the
loop continues, and every record ends up either inserted or failed. -/
theorem c9_one_call_per_record (ins : Nat → Except PyErr String) :
    ∀ (cds : List Json) (k : Nat),
      (∀ cd ∈ cds, isOkB (process_candidate cd) = true) →
      (insert_loop ins k cds).calls = cds.length ∧
      (insert_loop ins k cds).abortedEarly = false ∧
      (insert_loop ins k cds).inserted.length +
        (insert_loop ins k cds).failed.length = cds.length := by
  intro cds
  induction cds with
  | nil =>
    intro k _
    exact ⟨rfl, rfl, rfl⟩
  | cons cd cds ih =>
    intro k h
    have hcd : isOkB (process_candidate cd) = true := h cd (by simp)
    have hrest : ∀ x ∈ cds, isOkB (process_candidate x) = true :=
      fun x hx => h x (by simp [hx])
    obtain ⟨ihc, iha, ihl⟩ := ih (k + 1) hrest
    cases hp : process_candidate cd with
    | error e => rw [hp] at hcd; exact absurd hcd (by simp [isOkB])
    | ok p =>
      cases hik : ins k with
      | ok u =>
        simp only [insert_loop, hp, hik]
        refine ⟨?_, iha, ?_⟩ <;> (simp [ihc, ihl, List.length_cons]; try omega)
      | error e =>
        simp only [insert_loop, hp, hik]
        refine ⟨?_, iha, ?_⟩ <;> (simp [ihc, ihl, List.length_cons]; try omega)

/-- Witness for the amended C9: two well-formed records against the
transiently failing store cost two calls, no early abort, and both
records are accounted for. -/
theorem c9_one_call_per_record_witness :
    (∀ cd ∈ [Json.obj [], Json.obj []], isOkB (process_candidate cd) = true) ∧
    ((insert_loop failFirst 0 [Json.obj [], Json.obj []]).calls =
        ([Json.obj [], Json.obj []] : List Json).length ∧
      (insert_loop failFirst 0 [Json.obj [], Json.obj []]).abortedEarly = false ∧
      (insert_loop failFirst 0 [Json.obj [], Json.obj []]).inserted.length +
        (insert_loop failFirst 0 [Json.obj [], Json.obj []]).failed.length =
          ([Json.obj [], Json.obj []] : List Json).length) :=
  ⟨by decide, c9_one_call_per_record failFirst [Json.obj [], Json.obj []] 0 (by decide)⟩

theorem except_bind_ok {α β : Type} {f : Except PyErr α}
    {g : α → Except PyErr β} {b : β} (h : (f >>= g) = .ok b) :
    ∃ a, f = .ok a ∧ g a = .ok b := by
  cases f with
  | ok a => exact ⟨a, rfl, h⟩
  | error e =>
    rw [show ((Except.error e : Except PyErr α) >>= g) =
      (Except.error e : Except PyErr β) from rfl] at h
    exact absurd h (by simp)

theorem intOrNone_ok {v r : Json} (h : intOrNone v = .ok r) : YearVal r := by
  unfold intOrNone at h
  split at h
  · simp only [Except.ok.injEq] at h
    subst h
    split
    · exact Or.inl rfl
    · exact Or.inr ⟨_, by assumption, rfl⟩
  · exact absurd h (by simp)

theorem parse_date_ok {j : Json} {r : Option String}
    (h : parse_date j = .ok r) : DateVal (optToJson r) := by
  rcases parse_date_shape j with h0 | ⟨y, m, d, hv, h0⟩ <;>
    rw [h0] at h <;> simp only [Except.ok.injEq] at h <;> subst h
  · exact Or.inl rfl
  · exact Or.inr ⟨y, m, d, hv, rfl⟩

theorem processEdu_eq (kvs : List (String × Json)) :
    processEdu (Json.obj kvs) =
      (intOrNone ((dictGet? kvs "university_start_year").getD (.num 0)) >>= fun sy =>
        intOrNone ((dictGet? kvs "university_end_year").getD (.num 0)) >>= fun ey =>
        .ok (Json.obj [("degree", (dictGet? kvs "degree").getD (.str "")),
          ("university_start_year", sy), ("university_end_year", ey),
          ("education_area", (dictGet? kvs "education_area").getD (.str "")),
          ("school_name", (dictGet? kvs "school_name").getD (.str ""))])) :=
  rfl

theorem processEdu_normal {kvs : List (String × Json)} {e : Json}
    (h : processEdu (Json.obj kvs) = .ok e) : EduNormal e := by
  rw [processEdu_eq] at h
  obtain ⟨sy, hsy, h⟩ := except_bind_ok h
  obtain ⟨ey, hey, h⟩ := except_bind_ok h
  simp only [Except.ok.injEq] at h
  subst h
  exact ⟨_, sy, ey, _, _, intOrNone_ok hsy, intOrNone_ok hey, rfl⟩

theorem processEducation_normal :
    ∀ {l : List Json} {es : List Json}, processEducation l = .ok es →
      ∀ e ∈ es, EduNormal e := by
  intro l
  induction l with
  | nil =>
    intro es h
    unfold processEducation at h
    simp only [Except.ok.injEq] at h
    subst h
    intro e he
    exact absurd he (List.not_mem_nil e)
  | cons x rest ih =>
    intro es h
    unfold processEducation at h
    match x, h with
    | .obj kvs, h =>
      obtain ⟨pe, hpe, h⟩ := except_bind_ok h
      obtain ⟨prest, hprest, h⟩ := except_bind_ok h
      have h2 : pe :: prest = es := Except.ok.inj h
      subst h2
      intro e he
      rcases List.mem_cons.mp he with he | he
      · subst he
        exact processEdu_normal hpe
      · exact ih hprest e he
    | .null, h => exact ih h
    | .bool b, h => exact ih h
    | .num n, h => exact ih h
    | .str s, h => exact ih h
    | .arr xs, h => exact ih h

theorem processExp_eq (kvs : List (String × Json)) :
    processExp (Json.obj kvs) =
      (parse_date ((dictGet? kvs "start_date").getD Json.null) >>= fun sd =>
        parse_date ((dictGet? kvs "left_date").getD Json.null) >>= fun ld =>
        .ok (Json.obj [("title", (dictGet? kvs "title").getD (.str "")),
          ("employer", (dictGet? kvs "employer").getD (.str "")),
          ("description", (dictGet? kvs "description").getD (.str "")),
          ("is_current", .bool (truthy ((dictGet? kvs "is_current").getD (.bool false)))),
          ("start_date", optToJson sd), ("left_date", optToJson ld),
          ("duration_years", .str (pyStr ((dictGet? kvs "duration_years").getD (.str ""))))])) :=
  rfl

theorem processExp_normal {x e : Json}
    (h : processExp x = .ok e) : ExpNormal e := by
  match x, h with
  | .obj kvs, h =>
    rw [processExp_eq] at h
    obtain ⟨sd, hsd, h⟩ := except_bind_ok h
    obtain ⟨ld, hld, h⟩ := except_bind_ok h
    simp only [Except.ok.injEq] at h
    subst h
    exact ⟨_, _, _, _, _, _, _, parse_date_ok hsd, parse_date_ok hld, rfl⟩
  | .null, h =>
    rw [show processExp (Json.null) = .error .attributeError from rfl] at h
    exact absurd h (by simp)
  | .bool b, h =>
    rw [show processExp (Json.bool b) = .error .attributeError from rfl] at h
    exact absurd h (by simp)
  | .num n, h =>
    rw [show processExp (Json.num n) = .error .attributeError from rfl] at h
    exact absurd h (by simp)
  | .str s, h =>
    rw [show processExp (Json.str s) = .error .attributeError from rfl] at h
    exact absurd h (by simp)
  | .arr xs, h =>
    rw [show processExp (Json.arr xs) = .error .attributeError from rfl] at h
    exact absurd h (by simp)

theorem processExperiences_normal :
    ∀ {l : List Json} {es : List Json}, processExperiences l = .ok es →
      ∀ e ∈ es, ExpNormal e := by
  intro l
  induction l with
  | nil =>
    intro es h
    unfold processExperiences at h
    simp only [Except.ok.injEq] at h
    subst h
    intro e he
    exact absurd he (List.not_mem_nil e)
  | cons x rest ih =>
    intro es h
    unfold processExperiences at h
    obtain ⟨pe, hpe, h⟩ := except_bind_ok h
    obtain ⟨prest, hprest, h⟩ := except_bind_ok h
    have h2 : pe :: prest = es := Except.ok.inj h
    subst h2
    intro e he
    rcases List.mem_cons.mp he with he | he
    · subst he
      exact processExp_normal hpe
    · exact ih hprest e he

theorem processLoc_normal {x e : Json}
    (h : processLoc x = .ok e) : LocNormal e := by
  match x, h with
  | .obj kvs, h =>
    rw [show processLoc (Json.obj kvs) =
      .ok (Json.obj [("country", (dictGet? kvs "country").getD (.str "")),
        ("state", (dictGet? kvs "state").getD (.str "")),
        ("city", (dictGet? kvs "city").getD (.str ""))]) from rfl] at h
    simp only [Except.ok.injEq] at h
    subst h
    exact ⟨_, _, _, rfl⟩
  | .null, h =>
    rw [show processLoc (Json.null) = .error .attributeError from rfl] at h
    exact absurd h (by simp)
  | .bool b, h =>
    rw [show processLoc (Json.bool b) = .error .attributeError from rfl] at h
    exact absurd h (by simp)
  | .num n, h =>
    rw [show processLoc (Json.num n) = .error .attributeError from rfl] at h
    exact absurd h (by simp)
  | .str s, h =>
    rw [show processLoc (Json.str s) = .error .attributeError from rfl] at h
    exact absurd h (by simp)
  | .arr xs, h =>
    rw [show processLoc (Json.arr xs) = .error .attributeError from rfl] at h
    exact absurd h (by simp)

theorem processLocations_normal :
    ∀ {l : List Json} {es : List Json}, processLocations l = .ok es →
      ∀ e ∈ es, LocNormal e := by
  intro l
  induction l with
  | nil =>
    intro es h
    unfold processLocations at h
    simp only [Except.ok.injEq] at h
    subst h
    intro e he
    exact absurd he (List.not_mem_nil e)
  | cons x rest ih =>
    intro es h
    unfold processLocations at h
    obtain ⟨pe, hpe, h⟩ := except_bind_ok h
    obtain ⟨prest, hprest, h⟩ := except_bind_ok h
    have h2 : pe :: prest = es := Except.ok.inj h
    subst h2
    intro e he
    rcases List.mem_cons.mp he with he | he
    · subst he
      exact processLoc_normal hpe
    · exact ih hprest e he

theorem processActivity_eq (kvs : List (String × Json)) :
    processActivity (Json.obj kvs) =
      (parse_date ((dictGet? kvs "last_login").getD Json.null) >>= fun ll =>
        .ok (Json.obj [("account_age_days",
            .str (pyStr ((dictGet? kvs "account_age_days").getD (.str "")))),
          ("count_of_logins",
            .str (pyStr ((dictGet? kvs "count_of_logins").getD (.str "")))),
          ("last_login", optToJson ll)])) :=
  rfl

theorem processActivity_normal {x a : Json}
    (h : processActivity x = .ok a) : ActNormal a := by
  match x, h with
  | .obj kvs, h =>
    rw [processActivity_eq] at h
    obtain ⟨ll, hll, h⟩ := except_bind_ok h
    simp only [Except.ok.injEq] at h
    subst h
    exact ⟨_, _, _, parse_date_ok hll, rfl⟩
  | .null, h =>
    rw [show processActivity (Json.null) = .error .attributeError from rfl] at h
    exact absurd h (by simp)
  | .bool b, h =>
    rw [show processActivity (Json.bool b) = .error .attributeError from rfl] at h
    exact absurd h (by simp)
  | .num n, h =>
    rw [show processActivity (Json.num n) = .error .attributeError from rfl] at h
    exact absurd h (by simp)
  | .str s, h =>
    rw [show processActivity (Json.str s) = .error .attributeError from rfl] at h
    exact absurd h (by simp)
  | .arr xs, h =>
    rw [show processActivity (Json.arr xs) = .error .attributeError from rfl] at h
    exact absurd h (by simp)

theorem process_candidate_eq (kvs : List (String × Json)) :
    process_candidate (Json.obj kvs) =
      (pyIter ((dictGet? kvs "education").getD (.arr [])) >>= fun eduItems =>
       processEducation eduItems >>= fun edus =>
       pyIter ((dictGet? kvs "experiences").getD (.arr [])) >>= fun expItems =>
       processExperiences expItems >>= fun exps =>
       pyIter ((dictGet? kvs "locations").getD (.arr [])) >>= fun locItems =>
       processLocations locItems >>= fun locs =>
       processActivity ((dictGet? kvs "candidate_activity").getD (.obj [])) >>= fun act =>
       .ok (Json.obj [("name", (dictGet? kvs "name").getD (.str "")),
         ("candidate_values", (dictGet? kvs "candidate_values").getD (.str "")),
         ("candidate_strengths", (dictGet? kvs "candidate_strengths").getD (.str "")),
         ("jobSearchenvironment", (dictGet? kvs "jobSearchenvironment").getD (.arr [])),
         ("skills", (dictGet? kvs "skills").getD (.arr [])),
         ("education", .arr edus), ("experiences", .arr exps),
         ("locations", .arr locs),
         ("willing_to_relocate",
           .bool (truthy ((dictGet? kvs "willing_to_relocate").getD (.bool false)))),
         ("mentra_profile_link", (dictGet? kvs "mentra_profile_link").getD (.str "")),
         ("candidate_activity", act)])) :=
  rfl

theorem process_candidate_normal {cd out : Json}
    (h : process_candidate cd = .ok out) : RecNormal out := by
  match cd, h with
  | .obj kvs, h =>
    rw [process_candidate_eq] at h
    obtain ⟨eduItems, hei, h⟩ := except_bind_ok h
    obtain ⟨edus, hedus, h⟩ := except_bind_ok h
    obtain ⟨expItems, hxi, h⟩ := except_bind_ok h
    obtain ⟨exps, hexps, h⟩ := except_bind_ok h
    obtain ⟨locItems, hli, h⟩ := except_bind_ok h
    obtain ⟨locs, hlocs, h⟩ := except_bind_ok h
    obtain ⟨act, hact, h⟩ := except_bind_ok h
    simp only [Except.ok.injEq] at h
    subst h
    exact ⟨_, _, _, _, _, edus, exps, locs, _, _, act,
      processEducation_normal hedus, processExperiences_normal hexps,
      processLocations_normal hlocs, processActivity_normal hact, rfl⟩
  | .null, h =>
    rw [show process_candidate Json.null = .error .attributeError from rfl] at h
    exact absurd h (by simp)
  | .bool b, h =>
    rw [show process_candidate (Json.bool b) = .error .attributeError from rfl] at h
    exact absurd h (by simp)
  | .num n, h =>
    rw [show process_candidate (Json.num n) = .error .attributeError from rfl] at h
    exact absurd h (by simp)
  | .str s, h =>
    rw [show process_candidate (Json.str s) = .error .attributeError from rfl] at h
    exact absurd h (by simp)
  | .arr xs, h =>
    rw [show process_candidate (Json.arr xs) = .error .attributeError from rfl] at h
    exact absurd h (by simp)

theorem except_ok_bind {α β : Type} (a : α) (g : α → Except PyErr β) :
    ((Except.ok a : Except PyErr α) >>= g) = g a := rfl

theorem intOrNone_stable {n : Int} (hn : n ≠ 0) :
    intOrNone (Json.num n) = .ok (Json.num n) := by
  simp [intOrNone, pyInt, hn]

theorem parse_date_null : parse_date Json.null = .ok none := rfl

/-- The canonical date stored in a normalized field re-parses to itself. -/
theorem parse_date_roundtrip (y m d : Nat) (hv : validYmd y m d = true) :
    parse_date (Json.str (strftimeYmd y m d)) = .ok (some (strftimeYmd y m d)) := by
  have ht : truthy (Json.str (strftimeYmd y m d)) = true := by
    simp [truthy, strftimeYmd_ne_empty]
  unfold parse_date
  rw [ht]
  simp only [if_true]
  unfold strptimeE
  dsimp only []
  rw [strptime_strftime hv]

theorem parse_date_stable {v : Json} (hv : DateVal v) :
    parse_date v = .ok (dateBack v) ∧ optToJson (dateBack v) = v := by
  rcases hv with rfl | ⟨y, m, d, hval, rfl⟩
  · exact ⟨rfl, rfl⟩
  · exact ⟨parse_date_roundtrip y m d hval, rfl⟩

theorem processEdu_stable {e : Json} (he : EduNormal e)
    (hy : eduYearsPresent e = true) : processEdu e = .ok e := by
  obtain ⟨dg, sy, ey, ea, sn, hsy, hey, rfl⟩ := he
  rcases hsy with rfl | ⟨n1, hn1, rfl⟩
  · exact absurd hy (by simp [eduYearsPresent, dictGet?])
  rcases hey with rfl | ⟨n2, hn2, rfl⟩
  · exact absurd hy (by simp [eduYearsPresent, dictGet?])
  rw [processEdu_eq]
  simp [dictGet?, intOrNone_stable hn1, intOrNone_stable hn2, except_ok_bind]

theorem processEducation_stable :
    ∀ {l : List Json},
      (∀ e ∈ l, EduNormal e ∧ eduYearsPresent e = true) →
      processEducation l = .ok l := by
  intro l
  induction l with
  | nil => intro _; rfl
  | cons x rest ih =>
    intro h
    obtain ⟨hx, hyx⟩ := h x (by simp)
    have hrest := ih (fun e he => h e (by simp [he]))
    obtain ⟨dg, sy, ey, ea, sn, _, _, hshape⟩ := hx
    subst hshape
    simp only [processEducation, processEdu_stable ⟨dg, sy, ey, ea, sn, by assumption,
      by assumption, rfl⟩ hyx, except_ok_bind, hrest]
    rfl

theorem processExp_stable {e : Json} (he : ExpNormal e) : processExp e = .ok e := by
  obtain ⟨t, em, de, b, sd, ld, s, hsd, hld, rfl⟩ := he
  obtain ⟨hsd1, hsd2⟩ := parse_date_stable hsd
  obtain ⟨hld1, hld2⟩ := parse_date_stable hld
  rw [processExp_eq]
  simp [dictGet?, hsd1, hld1, hsd2, hld2, truthy, pyStr, except_ok_bind]

theorem processExperiences_stable :
    ∀ {l : List Json}, (∀ e ∈ l, ExpNormal e) → processExperiences l = .ok l := by
  intro l
  induction l with
  | nil => intro _; rfl
  | cons x rest ih =>
    intro h
    have hrest := ih (fun e he => h e (by simp [he]))
    simp only [processExperiences, processExp_stable (h x (by simp)),
      except_ok_bind, hrest]
    rfl

theorem processLoc_stable {e : Json} (he : LocNormal e) : processLoc e = .ok e := by
  obtain ⟨co, st, ci, rfl⟩ := he
  rw [show processLoc (Json.obj [("country", co), ("state", st), ("city", ci)]) =
    .ok (Json.obj [("country",
        (dictGet? [("country", co), ("state", st), ("city", ci)] "country").getD (.str "")),
      ("state",
        (dictGet? [("country", co), ("state", st), ("city", ci)] "state").getD (.str "")),
      ("city",
        (dictGet? [("country", co), ("state", st), ("city", ci)] "city").getD (.str ""))])
    from rfl]
  simp [dictGet?]

theorem processLocations_stable :
    ∀ {l : List Json}, (∀ e ∈ l, LocNormal e) → processLocations l = .ok l := by
  intro l
  induction l with
  | nil => intro _; rfl
  | cons x rest ih =>
    intro h
    have hrest := ih (fun e he => h e (by simp [he]))
    simp only [processLocations, processLoc_stable (h x (by simp)),
      except_ok_bind, hrest]
    rfl

theorem processActivity_stable {a : Json} (ha : ActNormal a) :
    processActivity a = .ok a := by
  obtain ⟨s1, s2, ll, hll, rfl⟩ := ha
  obtain ⟨h1, h2⟩ := parse_date_stable hll
  rw [processActivity_eq]
  simp [dictGet?, h1, h2, pyStr, except_ok_bind]

theorem process_candidate_stable {out : Json} (hn : RecNormal out)
    (hy : noNullEduYears out = true) : process_candidate out = .ok out := by
  obtain ⟨nm, cv, cs, jse, sk, edus, exps, locs, b, mpl, act,
    hedu, hexp, hloc, hact, rfl⟩ := hn
  simp [noNullEduYears, dictGet?, List.all_eq_true] at hy
  have he : processEducation edus = .ok edus :=
    processEducation_stable (fun e he => ⟨hedu e he, hy e he⟩)
  have hx : processExperiences exps = .ok exps := processExperiences_stable hexp
  have hl : processLocations locs = .ok locs := processLocations_stable hloc
  have ha : processActivity act = .ok act := processActivity_stable hact
  rw [process_candidate_eq]
  simp [dictGet?, pyIter, he, hx, hl, ha, except_ok_bind, truthy]

/-- C7 counterexample: normalization is not a fixed point — a record whose
education entry lacks year data normalizes successfully (years Absent),
but re-normalizing that very output raises `TypeError` (`int(None)` on the
stored null year) instead of returning it unchanged. -/
theorem c7_counterexample :
    process_candidate (Json.obj [("education", Json.arr [Json.obj []])]) =
      .ok nullYearOut ∧
    process_candidate nullYearOut = .error .typeError :=
  ⟨rfl, rfl⟩

/-- C7 amended: re-normalization is the identity precisely on outputs with
no Absent (null) education year: whenever a raw record normalizes
successfully and every education entry of the output has both year fields
present, `process_candidate` maps that output to itself; with a null year
the second pass raises `TypeError` instead. -/
theorem c7_fixed_point_on_present_years (raw out : Json)
    (h : process_candidate raw = .ok out) (hy : noNullEduYears out = true) :
    process_candidate out = .ok out :=
  process_candidate_stable (process_candidate_normal h) hy

/-- Witness for the amended C7: the empty record normalizes to the fully
defaulted output, whose (empty) education list has no null years, and
re-normalizing that output returns it unchanged. -/
theorem c7_fixed_point_on_present_years_witness :
    (process_candidate (Json.obj []) = .ok defaultOut ∧
      noNullEduYears defaultOut = true) ∧
    process_candidate defaultOut = .ok defaultOut :=
  ⟨⟨rfl, rfl⟩, c7_fixed_point_on_present_years (Json.obj []) defaultOut rfl rfl⟩
